import Mathlib

/-
Verification of the Uni-Shark backend core against its specification.

The Python modules under backend/ are shallowly embedded as Lean functions:
  * backend/utils/error_tracker.py      : consecutive-failure circuit breaker
  * backend/utils/notification_deduplicator.py : time-windowed dedup store
  * backend/notifications/unified_notifier.py  : suspension / error alerts
  * backend/tasks.py                    : snapshot diffing, first-scan path,
                                          deadline reminders
  * backend/scraper/enhanced_scraper.py : error-tracked scrape driver
  * backend/scraper/scraper_logic.py    : CAPTCHA provider fallback chain

Database tables become explicit state values (lists ordered newest-first,
matching the order-by-occurred_at-descending reads), wall-clock instants
become integers (only order and differences of timestamps matter to the
embedded logic), and Python strings are handled code-point by code-point.
-/

/-! ## Python string primitives

The embedded code uses `str.lower`, `str.strip`, the `in` substring test
and lexicographic string comparison.  They are modelled character-wise so
that every definition evaluates inside the kernel. -/

/-- ASCII lower-casing of one character, as Python `str.lower` acts on the
ASCII range (all strings compared by the embedded code are ASCII). -/
def pyLowerChar (c : Char) : Char :=
  if 'A' ≤ c ∧ c ≤ 'Z' then Char.ofNat (c.toNat + 32) else c

/-- Python `str.lower`. -/
def pyLower (s : String) : String := String.mk (s.data.map pyLowerChar)

/-- The characters removed by Python `str.strip()`. -/
def pyIsSpaceChar (c : Char) : Bool :=
  c = ' ' || c = '\t' || c = '\n' || c = '\r' || c = '\x0b' || c = '\x0c'

/-- Python `str.strip()`: drop leading and trailing whitespace. -/
def pyStrip (s : String) : String :=
  String.mk (((s.data.dropWhile pyIsSpaceChar).reverse.dropWhile pyIsSpaceChar).reverse)

/-- Does the second list occur as a leading segment of the first? -/
def leadsWithChars : List Char → List Char → Bool
  | _, [] => true
  | [], _ :: _ => false
  | a :: as, b :: bs => a = b && leadsWithChars as bs

/-- Does the second list occur as a contiguous segment of the first? -/
def occursInChars : List Char → List Char → Bool
  | [], n => n.isEmpty
  | h :: t, n => leadsWithChars (h :: t) n || occursInChars t n

/-- Python `needle in haystack` on strings. -/
def containsSub (haystack needle : String) : Bool :=
  occursInChars haystack.data needle.data

/-- Lexicographic strict comparison of code-point lists, as Python compares
strings. -/
def charListLt : List Char → List Char → Bool
  | [], [] => false
  | [], _ :: _ => true
  | _ :: _, [] => false
  | a :: as, b :: bs =>
    if a.toNat < b.toNat then true
    else if b.toNat < a.toNat then false
    else charListLt as bs

/-- Lexicographic comparison of code-point lists, as Python compares
strings with `<=`. -/
def charListLe : List Char → List Char → Bool
  | [], _ => true
  | _ :: _, [] => false
  | a :: as, b :: bs =>
    if a.toNat < b.toNat then true
    else if b.toNat < a.toNat then false
    else charListLe as bs

/-! ## Python values and their textual representation

`NotificationDeduplicator.generate_content_hash` turns the notification
content into `str(sorted(content.items()))` for a dict (and `str(content)`
otherwise) and hashes the UTF-8 bytes with MD5.  `PyVal` models the JSON-like
values that reach it; `pyRepr` mirrors Python `repr`, which `str` uses for
containers (the embedded contents contain no quotes, backslashes or
control characters, so `repr` of a string is just the quoted string). -/

inductive PyVal where
  | str : String → PyVal
  | int : Int → PyVal
  | dict : List (String × PyVal) → PyVal
  | list : List PyVal → PyVal

/-- Decimal digits of a natural number (accumulator-free, fuelled by the
number itself so it is structurally terminating). -/
def natDigitsAux : Nat → Nat → List Char
  | 0, _ => []
  | fuel + 1, n =>
    if n = 0 then [] else natDigitsAux fuel (n / 10) ++ [Char.ofNat (48 + n % 10)]

/-- Python `str` of a natural number. -/
def pyStrOfNat (n : Nat) : String :=
  if n = 0 then "0" else String.mk (natDigitsAux n n)

/-- Python `str` of an integer. -/
def pyStrOfInt : Int → String
  | .ofNat n => pyStrOfNat n
  | .negSucc m => "-" ++ pyStrOfNat (m + 1)

/-- Python `repr` of a quote-free string: surrounded by single quotes. -/
def pyReprStr (s : String) : String := "\x27" ++ s ++ "\x27"

mutual

/-- Python `repr` of a value. -/
def pyRepr : PyVal → String
  | .str s => pyReprStr s
  | .int n => pyStrOfInt n
  | .dict l => "\x7b" ++ pyReprPairs l ++ "\x7d"
  | .list l => "[" ++ pyReprElems l ++ "]"

/-- Comma-separated `repr(key): repr(value)` pairs of a dict, in insertion
order, as Python renders a dict. -/
def pyReprPairs : List (String × PyVal) → String
  | [] => ""
  | [(k, v)] => pyReprStr k ++ ": " ++ pyRepr v
  | (k, v) :: rest => pyReprStr k ++ ": " ++ pyRepr v ++ ", " ++ pyReprPairs rest

/-- Comma-separated `repr` of list elements. -/
def pyReprElems : List PyVal → String
  | [] => ""
  | [v] => pyRepr v
  | v :: rest => pyRepr v ++ ", " ++ pyReprElems rest

end

/-- Python `str` of a list of `(key, value)` tuples, as produced by
`str(sorted(content.items()))`. -/
def pyStrOfItems (l : List (String × PyVal)) : String :=
  "[" ++ pyStrOfItemsAux l ++ "]"
where
  pyStrOfItemsAux : List (String × PyVal) → String
    | [] => ""
    | [(k, v)] => "(" ++ pyReprStr k ++ ", " ++ pyRepr v ++ ")"
    | (k, v) :: rest =>
      "(" ++ pyReprStr k ++ ", " ++ pyRepr v ++ ")" ++ ", " ++ pyStrOfItemsAux rest

/-- Python `str` of a value (`str` and `repr` agree on containers and
numbers; on strings `str` is the identity). -/
def pyStr : PyVal → String
  | .str s => s
  | v => pyRepr v

/-- Key order used by `sorted(content.items())`.  The items of a Python
dict carry pairwise-distinct keys, so the tuple comparison never proceeds
past the first component and sorting by key alone is faithful. -/
def itemKeyLe (a b : String × PyVal) : Prop :=
  charListLe a.1.data b.1.data = true

instance : DecidableRel itemKeyLe := fun a b =>
  instDecidableEqBool (charListLe a.1.data b.1.data) true

/-- `sorted(content.items())`. -/
def sortedItems (l : List (String × PyVal)) : List (String × PyVal) :=
  List.insertionSort itemKeyLe l

/-! ## MD5 (RFC 1321) over byte lists -/

/-- UTF-8 encoding of a string, as Python `str.encode()`. -/
def utf8Bytes (s : String) : List Nat :=
  s.data.flatMap fun c =>
    let n := c.toNat
    if n < 128 then [n]
    else if n < 2048 then [192 ||| (n >>> 6), 128 ||| (n &&& 63)]
    else if n < 65536 then
      [224 ||| (n >>> 12), 128 ||| ((n >>> 6) &&& 63), 128 ||| (n &&& 63)]
    else
      [240 ||| (n >>> 18), 128 ||| ((n >>> 12) &&& 63), 128 ||| ((n >>> 6) &&& 63),
       128 ||| (n &&& 63)]

/-- Rotate a 32-bit word left by `n` bits. -/
def rotl32 (x n : Nat) : Nat := ((x <<< n) ||| (x >>> (32 - n))) % 4294967296

/-- The 64 MD5 sine-derived constants. -/
def md5K : List Nat :=
  [0xd76aa478, 0xe8c7b756, 0x242070db, 0xc1bdceee, 0xf57c0faf, 0x4787c62a,
   0xa8304613, 0xfd469501, 0x698098d8, 0x8b44f7af, 0xffff5bb1, 0x895cd7be,
   0x6b901122, 0xfd987193, 0xa679438e, 0x49b40821, 0xf61e2562, 0xc040b340,
   0x265e5a51, 0xe9b6c7aa, 0xd62f105d, 0x02441453, 0xd8a1e681, 0xe7d3fbc8,
   0x21e1cde6, 0xc33707d6, 0xf4d50d87, 0x455a14ed, 0xa9e3e905, 0xfcefa3f8,
   0x676f02d9, 0x8d2a4c8a, 0xfffa3942, 0x8771f681, 0x6d9d6122, 0xfde5380c,
   0xa4beea44, 0x4bdecfa9, 0xf6bb4b60, 0xbebfbc70, 0x289b7ec6, 0xeaa127fa,
   0xd4ef3085, 0x04881d05, 0xd9d4d039, 0xe6db99e5, 0x1fa27cf8, 0xc4ac5665,
   0xf4292244, 0x432aff97, 0xab9423a7, 0xfc93a039, 0x655b59c3, 0x8f0ccc92,
   0xffeff47d, 0x85845dd1, 0x6fa87e4f, 0xfe2ce6e0, 0xa3014314, 0x4e0811a1,
   0xf7537e82, 0xbd3af235, 0x2ad7d2bb, 0xeb86d391]

/-- The 64 MD5 per-round left-rotation amounts. -/
def md5S : List Nat :=
  [7, 12, 17, 22, 7, 12, 17, 22, 7, 12, 17, 22, 7, 12, 17, 22,
   5, 9, 14, 20, 5, 9, 14, 20, 5, 9, 14, 20, 5, 9, 14, 20,
   4, 11, 16, 23, 4, 11, 16, 23, 4, 11, 16, 23, 4, 11, 16, 23,
   6, 10, 15, 21, 6, 10, 15, 21, 6, 10, 15, 21, 6, 10, 15, 21]

/-- MD5 padding: a 1-bit, zeros to 56 mod 64 bytes, then the bit length in
little-endian order. -/
def md5Pad (msg : List Nat) : List Nat :=
  let ml := 8 * msg.length
  let padLen := (55 + 64 - msg.length % 64) % 64
  msg ++ [128] ++ List.replicate padLen 0 ++
    (List.range 8).map (fun i => (ml >>> (8 * i)) % 256)

/-- Little-endian 32-bit word `j` of a 64-byte chunk. -/
def md5Word (chunk : List Nat) (j : Nat) : Nat :=
  chunk.getD (4 * j) 0 + 256 * chunk.getD (4 * j + 1) 0 +
    65536 * chunk.getD (4 * j + 2) 0 + 16777216 * chunk.getD (4 * j + 3) 0

/-- One of the 64 MD5 rounds. -/
def md5Round (chunk : List Nat) (st : Nat × Nat × Nat × Nat) (i : Nat) :
    Nat × Nat × Nat × Nat :=
  let (a, b, c, d) := st
  let f :=
    if i < 16 then (b &&& c) ||| ((b ^^^ 4294967295) &&& d)
    else if i < 32 then (d &&& b) ||| ((d ^^^ 4294967295) &&& c)
    else if i < 48 then b ^^^ c ^^^ d
    else c ^^^ (b ||| (d ^^^ 4294967295))
  let g :=
    if i < 16 then i
    else if i < 32 then (5 * i + 1) % 16
    else if i < 48 then (3 * i + 5) % 16
    else (7 * i) % 16
  let tmp := (f + a + md5K.getD i 0 + md5Word chunk g) % 4294967296
  (d, (b + rotl32 tmp (md5S.getD i 0)) % 4294967296, b, c)

/-- Compress one 64-byte chunk into the running state. -/
def md5Block (st : Nat × Nat × Nat × Nat) (chunk : List Nat) :
    Nat × Nat × Nat × Nat :=
  let (a0, b0, c0, d0) := st
  let (a, b, c, d) := (List.range 64).foldl (md5Round chunk) st
  ((a0 + a) % 4294967296, (b0 + b) % 4294967296,
   (c0 + c) % 4294967296, (d0 + d) % 4294967296)

/-- Split a byte list into 64-byte chunks (fuelled by the list length). -/
def toChunks : Nat → List Nat → List (List Nat)
  | 0, _ => []
  | _, [] => []
  | fuel + 1, l => l.take 64 :: toChunks fuel (l.drop 64)

/-- Lower-case hexadecimal digit. -/
def hexDigit (n : Nat) : Char :=
  if n < 10 then Char.ofNat (48 + n) else Char.ofNat (87 + n)

/-- The 16 MD5 digest bytes of a message. -/
def md5Bytes (msg : List Nat) : List Nat :=
  let padded := md5Pad msg
  let (a, b, c, d) :=
    (toChunks padded.length padded).foldl md5Block
      (0x67452301, 0xefcdab89, 0x98badcfe, 0x10325476)
  [a, b, c, d].flatMap (fun w => (List.range 4).map (fun i => (w >>> (8 * i)) % 256))

/-- `hashlib.md5(data).hexdigest()`. -/
def md5Hex (msg : List Nat) : String :=
  String.mk (md5Bytes msg |>.flatMap (fun b => [hexDigit (b / 16), hexDigit (b % 16)]))

/-- `NotificationDeduplicator.generate_content_hash`: the MD5 hex digest of
`str(sorted(content.items()))` for a dict, and of `str(content)` otherwise. -/
def generate_content_hash (content : PyVal) : String :=
  let content_str :=
    match content with
    | .dict items => pyStrOfItems (sortedItems items)
    | other => pyStr other
  md5Hex (utf8Bytes content_str)

/-! ## Error tracker (backend/utils/error_tracker.py)

The `scraping_errors` table becomes a list of events, newest first (the
reader orders by `occurred_at` descending and takes the first row); the
`user_credentials` columns touched by the tracker become a small record. -/

/-- The `ErrorType` enum of error_tracker.py. -/
inductive PyErrorType where
  | wrong_credentials
  | wrong_captcha
  | captcha_error
  | captcha_service_error
  | ip_banned
  | no_captcha_credit
  | network_timeout
  | connection_failed
  | page_load_failed
  | browser_crashed
  | driver_error
  | session_expired
  | dulms_maintenance
  | dulms_overloaded
  | unexpected_page_structure
  | unknown_error
  | scraping_failed
deriving DecidableEq

/-- The `.value` string of each `ErrorType` member. -/
def PyErrorType.value : PyErrorType → String
  | .wrong_credentials => "wrong_credentials"
  | .wrong_captcha => "wrong_captcha"
  | .captcha_error => "captcha_error"
  | .captcha_service_error => "captcha_service_error"
  | .ip_banned => "ip_banned"
  | .no_captcha_credit => "no_captcha_credit"
  | .network_timeout => "network_timeout"
  | .connection_failed => "connection_failed"
  | .page_load_failed => "page_load_failed"
  | .browser_crashed => "browser_crashed"
  | .driver_error => "driver_error"
  | .session_expired => "session_expired"
  | .dulms_maintenance => "dulms_maintenance"
  | .dulms_overloaded => "dulms_overloaded"
  | .unexpected_page_structure => "unexpected_page_structure"
  | .unknown_error => "unknown_error"
  | .scraping_failed => "scraping_failed"

/-- Python `str` of an `ErrorType` member, `"ErrorType.NAME"`. -/
def PyErrorType.pyText : PyErrorType → String
  | .wrong_credentials => "ErrorType.WRONG_CREDENTIALS"
  | .wrong_captcha => "ErrorType.WRONG_CAPTCHA"
  | .captcha_error => "ErrorType.CAPTCHA_ERROR"
  | .captcha_service_error => "ErrorType.CAPTCHA_SERVICE_ERROR"
  | .ip_banned => "ErrorType.IP_BANNED"
  | .no_captcha_credit => "ErrorType.NO_CAPTCHA_CREDIT"
  | .network_timeout => "ErrorType.NETWORK_TIMEOUT"
  | .connection_failed => "ErrorType.CONNECTION_FAILED"
  | .page_load_failed => "ErrorType.PAGE_LOAD_FAILED"
  | .browser_crashed => "ErrorType.BROWSER_CRASHED"
  | .driver_error => "ErrorType.DRIVER_ERROR"
  | .session_expired => "ErrorType.SESSION_EXPIRED"
  | .dulms_maintenance => "ErrorType.DULMS_MAINTENANCE"
  | .dulms_overloaded => "ErrorType.DULMS_OVERLOADED"
  | .unexpected_page_structure => "ErrorType.UNEXPECTED_PAGE_STRUCTURE"
  | .unknown_error => "ErrorType.UNKNOWN_ERROR"
  | .scraping_failed => "ErrorType.SCRAPING_FAILED"

/-- One row of the `scraping_errors` table. -/
structure ErrorEvent where
  error_type : String
  error_message : String
  consecutive_failure_count : Nat
  should_suspend_scraping : Bool
deriving DecidableEq

/-- The `user_credentials` columns the tracker reads and writes. -/
structure UserCredentials where
  is_automation_active : Bool
  scraping_suspended : Bool
  suspension_reason : Option String
deriving DecidableEq

/-- Per-tenant tracker state: the event log (newest first) and the
credentials row. -/
structure TrackerState where
  events : List ErrorEvent
  creds : UserCredentials
deriving DecidableEq

/-- `ErrorTracker.max_consecutive_failures` as currently shipped
(temporarily raised from 6 to 10 per the source comment). -/
def max_consecutive_failures : Nat := 10

/-- `ErrorTracker._get_consecutive_failure_count`: the count carried by the
most recent event, or 0 when there is none or it is a success. -/
def get_consecutive_failure_count (s : TrackerState) : Nat :=
  match s.events with
  | [] => 0
  | e :: _ => if e.error_type = "success" then 0 else e.consecutive_failure_count

/-- `ErrorTracker._suspend_auto_scraping`: flip automation off, set the
suspended flag, record the reason. -/
def suspend_auto_scraping (threshold : Nat) (s : TrackerState) : TrackerState :=
  { s with
    creds :=
      { is_automation_active := false
        scraping_suspended := true
        suspension_reason :=
          some ("Suspended after " ++ pyStrOfNat threshold ++ " consecutive failures") } }

/-- `ErrorTracker._enable_auto_scraping`: re-enable automation only when the
suspended flag is set. -/
def enable_auto_scraping (s : TrackerState) : TrackerState :=
  if s.creds.scraping_suspended then
    { s with
      creds :=
        { is_automation_active := true
          scraping_suspended := false
          suspension_reason := none } }
  else s

/-- `ErrorTracker.log_error` with threshold `self.max_consecutive_failures`:
read the count, increment, insert the event, suspend when the threshold is
reached.  Returns whether scraping should be suspended, with the new state. -/
def log_error (threshold : Nat) (error_type : PyErrorType) (error_message : String)
    (s : TrackerState) : Bool × TrackerState :=
  let current_count := get_consecutive_failure_count s
  let new_count := current_count + 1
  let should_suspend := threshold ≤ new_count
  let s1 : TrackerState :=
    { s with
      events :=
        { error_type := error_type.value
          error_message := error_message
          consecutive_failure_count := new_count
          should_suspend_scraping := should_suspend } :: s.events }
  if should_suspend then (true, suspend_auto_scraping threshold s1) else (false, s1)

/-- `ErrorTracker.log_success`: insert a zero-count success event and
re-enable automation when it was suspended. -/
def log_success (s : TrackerState) : TrackerState :=
  let s1 : TrackerState :=
    { s with
      events :=
        { error_type := "success"
          error_message := "Scraping completed successfully"
          consecutive_failure_count := 0
          should_suspend_scraping := false } :: s.events }
  enable_auto_scraping s1

/-! ## Notification deduplicator (backend/utils/notification_deduplicator.py) -/

/-- One row of the `notification_dedup` table. -/
structure DedupRecord where
  notification_id : String
  sent_at : Int
deriving DecidableEq

/-- The `notification_dedup` table. -/
abbrev DedupState := List DedupRecord

/-- The composed key `f"{user_id}:{notification_type}:{content_hash}"`. -/
def notification_id_of (user_id notification_type content_hash : String) : String :=
  user_id ++ ":" ++ notification_type ++ ":" ++ content_hash

/-- `NotificationDeduplicator.should_send_notification`: block when a record
with the same key was sent at or after `now` minus the window, otherwise
record the send and permit it. -/
def should_send_notification (dedup_window_minutes : Int)
    (user_id notification_type content_hash : String) (now : Int)
    (st : DedupState) : Bool × DedupState :=
  let nid := notification_id_of user_id notification_type content_hash
  let cutoff := now - dedup_window_minutes * 60
  if st.any (fun r => r.notification_id = nid && cutoff ≤ r.sent_at) then
    (false, st)
  else
    (true, { notification_id := nid, sent_at := now } :: st)

/-! ## Unified notifier (backend/notifications/unified_notifier.py)

Only the dedup gate of each send matters to the embedded logic: whether the
alert goes out to the channels, and the record it writes.  The returned
boolean is `true` exactly when the alert was dispatched (not blocked). -/

/-- The constant content dict of `send_suspension_notification`. -/
def suspension_content : PyVal :=
  .dict [("type", .str "suspension"),
         ("message", .str "Auto-scraping suspended due to consecutive failures")]

/-- `UnifiedNotifier.send_suspension_notification`: gate on the 5-minute
dedup window keyed by the constant suspension content, recording the send
when permitted. -/
def send_suspension_notification (user_id : String) (now : Int) (dd : DedupState) :
    Bool × DedupState :=
  should_send_notification 5 user_id "suspension"
    (generate_content_hash suspension_content) now dd

/-- The content dict of `send_error_notification`: notification type,
`str(error_type)` and the user-facing message. -/
def error_content (error_type : PyErrorType) (friendly_message : String) : PyVal :=
  .dict [("type", .str "error"),
         ("error_type", .str error_type.pyText),
         ("message", .str friendly_message)]

/-- `UnifiedNotifier.send_error_notification`: gate on the 5-minute dedup
window keyed by the error content, recording the send when permitted. -/
def send_error_notification (user_id : String) (error_type : PyErrorType)
    (friendly_message : String) (now : Int) (dd : DedupState) : Bool × DedupState :=
  should_send_notification 5 user_id "error"
    (generate_content_hash (error_content error_type friendly_message)) now dd

/-- `EnhancedScraper._get_friendly_error_message`: the fixed user-facing
message per error type, defaulting to `"An error occurred: ..."` for the
types absent from the table (`CAPTCHA_ERROR`, `SCRAPING_FAILED`). -/
def get_friendly_error_message (error_type : PyErrorType) (error_message : String) :
    String :=
  match error_type with
  | .wrong_credentials =>
    "Your DULMS username or password appears to be incorrect. Please check your credentials in settings."
  | .wrong_captcha =>
    "CAPTCHA verification failed. This might be due to CAPTCHA service issues or poor image quality."
  | .ip_banned =>
    "Your IP address appears to be temporarily banned. Please try again later or contact support."
  | .no_captcha_credit =>
    "Your CAPTCHA service has run out of credits. Please top up your account or check your API keys."
  | .captcha_service_error =>
    "CAPTCHA solving service is experiencing issues. Please check your API keys or try again later."
  | .network_timeout =>
    "Network connection timed out. Please check your internet connection."
  | .connection_failed =>
    "Failed to connect to DULMS. The server might be down or experiencing issues."
  | .page_load_failed =>
    "Failed to load DULMS page. The website might be experiencing issues."
  | .browser_crashed =>
    "Browser crashed during scraping. This is usually a temporary issue."
  | .driver_error =>
    "Browser driver encountered an error. Please try again later."
  | .session_expired =>
    "Login session expired during scraping. Will retry on next scheduled run."
  | .dulms_maintenance =>
    "DULMS is currently under maintenance. Scraping will resume automatically when available."
  | .dulms_overloaded =>
    "DULMS server is overloaded. Will retry later when traffic is lower."
  | .unexpected_page_structure =>
    "DULMS page structure has changed. Our team has been notified for updates."
  | .unknown_error =>
    "An unexpected error occurred. Our team has been notified."
  | _ => "An error occurred: " ++ error_message

/-- The shared failure-handling tail of `EnhancedScraper._login_with_tracking`
and `EnhancedScraper._handle_scraping_error`: log the failure, send the
(deduped) error notification, and send the (deduped) suspension alert when
the breaker tripped.  Returns `(should_suspend, suspension_alert_sent)`
with the updated tracker and dedup states. -/
def handle_failure_step (threshold : Nat) (user_id : String)
    (error_type : PyErrorType) (error_message : String) (now : Int)
    (ts : TrackerState) (dd : DedupState) :
    (Bool × Bool) × TrackerState × DedupState :=
  let logged := log_error threshold error_type error_message ts
  let dd1 :=
    (send_error_notification user_id error_type
      (get_friendly_error_message error_type error_message) now dd).2
  if logged.1 then
    let alert := send_suspension_notification user_id now dd1
    ((true, alert.1), logged.2, alert.2)
  else
    ((false, false), logged.2, dd1)

/-! ## Error classifier (error_tracker.detect_error_type) -/

/-- `detect_error_type`: priority-ordered keyword matching over the
lower-cased error message and page source; unmatched errors fall to
`SCRAPING_FAILED`. -/
def detect_error_type (error_message : String) (page_source : String) : PyErrorType :=
  let error_lower := pyLower error_message
  let page_lower := pyLower page_source
  if containsSub page_lower "wrong captcha" ||
      (containsSub page_lower "errorlbl" && containsSub page_lower "wrong captcha") then
    .wrong_captcha
  else if containsSub page_lower "please enter correct username" ||
      (containsSub page_lower "invalid" && containsSub error_lower "credentials") then
    .wrong_credentials
  else if containsSub error_lower "ip ban" || containsSub error_lower "banned" then
    .ip_banned
  else if containsSub error_lower "no credit" ||
      containsSub error_lower "insufficient credit" then
    .no_captcha_credit
  else if (containsSub error_lower "nopecha" && containsSub error_lower "failed") ||
      (containsSub error_lower "freecaptchabypass" && containsSub error_lower "failed") then
    .captcha_service_error
  else if containsSub error_lower "captcha" &&
      (containsSub error_lower "failed" || containsSub error_lower "error" ||
        containsSub error_lower "timeout") then
    .captcha_service_error
  else if containsSub error_lower "timeout" || containsSub error_lower "timed out" then
    .network_timeout
  else if containsSub error_lower "connection" &&
      (containsSub error_lower "failed" || containsSub error_lower "refused" ||
        containsSub error_lower "reset") then
    .connection_failed
  else if (containsSub error_lower "page" &&
        (containsSub error_lower "load" || containsSub error_lower "not found")) ||
      containsSub error_lower "404" then
    .page_load_failed
  else if containsSub error_lower "no such window" ||
      containsSub error_lower "target window already closed" then
    .browser_crashed
  else if (containsSub error_lower "webdriver" || containsSub error_lower "driver") &&
      (containsSub error_lower "error" || containsSub error_lower "failed") then
    .driver_error
  else if containsSub error_lower "session" &&
      (containsSub error_lower "invalid" || containsSub error_lower "expired") then
    .session_expired
  else if containsSub page_lower "maintenance" ||
      containsSub page_lower "under maintenance" then
    .dulms_maintenance
  else if containsSub page_lower "overloaded" || containsSub page_lower "high traffic" ||
      containsSub page_lower "server busy" then
    .dulms_overloaded
  else if (containsSub error_lower "element not found" &&
        containsSub error_lower "selenium") ||
      (containsSub error_lower "unexpected" && containsSub error_lower "page") then
    .unexpected_page_structure
  else if containsSub error_lower "login" &&
      (containsSub error_lower "failed" || containsSub error_lower "error") then
    .wrong_credentials
  else if containsSub error_lower "scraping" && containsSub error_lower "failed" then
    .scraping_failed
  else
    .scraping_failed

/-! ## Error-tracked scrape run (backend/scraper/enhanced_scraper.py)

`run_scrape_with_error_tracking` is embedded over an abstract behaviour of
the underlying session: either login fails with some exception message and
page source, or the whole scrape succeeds.  (Driver-initialisation and
per-page failure paths are not needed by any claim and are elided.) -/

/-- What the underlying automated session does during one run. -/
inductive ScrapeBehavior where
  | loginFails (error_message : String) (page_source : String)
  | allOk

/-- The structured result dict of `run_scrape_with_error_tracking`. -/
structure ScrapeRunResult where
  status : String
  error_tracking_skipped : Bool
deriving DecidableEq

/-- The vague-error guard of the top-level exception handler:
`"unknown error" in error_msg.lower() or len(error_msg.strip()) < 10`. -/
def is_vague_error (error_message : String) : Bool :=
  containsSub (pyLower error_message) "unknown error" ||
    (pyStrip error_message).data.length < 10

/-- `EnhancedScraper.run_scrape_with_error_tracking`.  A suspended tenant
short-circuits.  On success, `log_success` runs.  When login raises, the
inner handler of `_login_with_tracking` classifies, logs and notifies
before re-raising; the top-level handler then either skips tracking (vague
message) or runs `_handle_scraping_error`, which classifies and logs the
same exception a second time. -/
def run_scrape_with_error_tracking (threshold : Nat) (user_id : String)
    (behavior : ScrapeBehavior) (now : Int) (ts : TrackerState) (dd : DedupState) :
    ScrapeRunResult × TrackerState × DedupState :=
  if ts.creds.scraping_suspended then
    ({ status := "suspended", error_tracking_skipped := false }, ts, dd)
  else
    match behavior with
    | .allOk =>
      ({ status := "success", error_tracking_skipped := false }, log_success ts, dd)
    | .loginFails error_message page_source =>
      let error_type := detect_error_type error_message page_source
      let inner :=
        handle_failure_step threshold user_id error_type error_message now ts dd
      if is_vague_error error_message then
        ({ status := "failed", error_tracking_skipped := true }, inner.2)
      else
        let error_type2 := detect_error_type error_message page_source
        let outer :=
          handle_failure_step threshold user_id error_type2 error_message now
            inner.2.1 inner.2.2
        ({ status := "failed", error_tracking_skipped := false }, outer.2)

/-! ## CAPTCHA provider fallback chain (backend/scraper/scraper_logic.py) -/

/-- `validate_fcb_key`: false when the key is missing, empty, or whitespace. -/
def validate_fcb_key : Option String → Bool
  | none => false
  | some key =>
    if key = "" then false
    else if pyStrip key = "" then false
    else true

/-- The missing-key test of the NopeCHA branch of `solve_captcha`:
`not nopecha_api_key or not nopecha_api_key.strip()`. -/
def nopecha_key_missing : Option String → Bool
  | none => true
  | some key => key = "" || pyStrip key = ""

/-- What one provider attempt does: a solved text or a failure, with the
wall-clock seconds the attempt consumed. -/
inductive ProviderOutcome where
  | solved (text : String) (elapsed : Int)
  | fails (error_message : String) (elapsed : Int)

/-- Seconds consumed by an attempt. -/
def ProviderOutcome.elapsed : ProviderOutcome → Int
  | .solved _ e => e
  | .fails _ e => e

/-- `solve_captcha`: FreeCaptchaBypass first when its key validates, then
NopeCHA; with no valid NopeCHA key the fallback raises the distinguished
no-keys error.  Besides the result it returns the ordered list of providers
actually attempted and the provider time consumed, so that skipping a
provider is visible. -/
def solve_captcha (fcb_api_key nopecha_api_key : Option String)
    (fcb_run nopecha_run : ProviderOutcome) :
    Except String String × List String × Int :=
  let nopechaChain : Int → List String → Except String String × List String × Int :=
    fun spent tried =>
      if nopecha_key_missing nopecha_api_key then
        (.error "Both CAPTCHA services are unavailable - no valid API keys provided.",
         tried, spent)
      else
        match nopecha_run with
        | .solved text e => (.ok text, tried ++ ["nopecha"], spent + e)
        | .fails _ e => (.error "Both CAPTCHA services failed.", tried ++ ["nopecha"], spent + e)
  if validate_fcb_key fcb_api_key then
    match fcb_run with
    | .solved text e => (.ok text, ["fcb"], e)
    | .fails _ e => nopechaChain e ["fcb"]
  else
    nopechaChain 0 []

/-! ## Snapshot diffing and the first-scan path (backend/tasks.py)

A snapshot's category sub-dicts are present or absent (`'quizzes' in data`);
inside a present category the item lists default to `[]` via `.get`, so the
lists are modelled directly. -/

/-- A quiz or assignment item: the fields the diff identity reads
(`.get` with default `""`). -/
structure QAItem where
  course : String
  name : String
deriving DecidableEq

/-- An absence item: the fields its diff identity reads. -/
structure AbsenceItem where
  course : String
  date : String
  type : String
deriving DecidableEq

/-- The `quizzes` sub-dict of a snapshot. -/
structure QuizzesPage where
  quizzes_with_results : List QAItem
  quizzes_without_results : List QAItem
deriving DecidableEq

/-- The `course_registration` sub-dict: the available course names. -/
structure CoursesPage where
  available_courses : List String
deriving DecidableEq

/-- One scraped snapshot (`scraped_data`). -/
structure ScrapeData where
  quizzes : Option QuizzesPage
  assignments : Option (List QAItem)
  absences : Option (List AbsenceItem)
  course_registration : Option CoursesPage
deriving DecidableEq

/-- The identity key `f"{course}-{name}"` of a quiz or assignment. -/
def qa_identity (q : QAItem) : String := q.course ++ "-" ++ q.name

/-- The identity key `f"{course}-{date}-{type}"` of an absence. -/
def absence_identity (a : AbsenceItem) : String :=
  a.course ++ "-" ++ a.date ++ "-" ++ a.type

/-- Items of the new list whose identity key does not occur among the old
list's identity keys (the per-category loop of `compare_and_notify`). -/
def new_items_by {α : Type} (key : α → String) (news olds : List α) : List α :=
  news.filter (fun x => !((olds.map key).contains (key x)))

/-- The outcome of `compare_and_notify`: the new items per category, the
returned count, and whether the new-items notification path was invoked. -/
structure CompareOutcome where
  quizzes_with_results : List QAItem
  quizzes_without_results : List QAItem
  assignments : List QAItem
  absences : List AbsenceItem
  new_items_count : Nat
  notified : Bool
deriving DecidableEq

/-- `compare_and_notify`: each category is compared only when its top-level
key is present in both the previous and the new data; the notifier is
invoked only when at least one new item was found. -/
def compare_and_notify (last_data new_data : ScrapeData) : CompareOutcome :=
  let qwr :=
    match new_data.quizzes, last_data.quizzes with
    | some nq, some lq => new_items_by qa_identity nq.quizzes_with_results lq.quizzes_with_results
    | _, _ => []
  let qwor :=
    match new_data.quizzes, last_data.quizzes with
    | some nq, some lq =>
      new_items_by qa_identity nq.quizzes_without_results lq.quizzes_without_results
    | _, _ => []
  let assigns :=
    match new_data.assignments, last_data.assignments with
    | some na, some la => new_items_by qa_identity na la
    | _, _ => []
  let absents :=
    match new_data.absences, last_data.absences with
    | some na, some la => new_items_by absence_identity na la
    | _, _ => []
  let count := qwr.length + qwor.length + assigns.length + absents.length
  { quizzes_with_results := qwr
    quizzes_without_results := qwor
    assignments := assigns
    absences := absents
    new_items_count := count
    notified := decide (0 < count) }

/-- `send_first_scan_notification`: send the first-scrape confirmation and
return the item count over the quiz (with and without results), assignment
and absence lists, each counted only when its top-level key is present. -/
def send_first_scan_notification (d : ScrapeData) : Nat :=
  (match d.quizzes with
   | some q => q.quizzes_with_results.length + q.quizzes_without_results.length
   | none => 0) +
  (match d.assignments with
   | some a => a.length
   | none => 0) +
  (match d.absences with
   | some a => a.length
   | none => 0)

/-- Which notification path a successful scrape takes. -/
inductive NotifyPath where
  | first_run
  | subsequent
deriving DecidableEq

/-- The notification phase of `execute_scrape_task`: with no previous
successful snapshot, route to `send_first_scan_notification`; otherwise
diff against the previous snapshot via `compare_and_notify`.  Returns the
new-item count recorded on the job and the path taken. -/
def notify_after_scan (last_success : Option ScrapeData) (processed : ScrapeData) :
    Nat × NotifyPath :=
  match last_success with
  | none => (send_first_scan_notification processed, .first_run)
  | some last => ((compare_and_notify last processed).new_items_count, .subsequent)

/-- Total number of items carried by a snapshot, following the spec's data
model: a Snapshot is collections of Assignment, Quiz, Absence and
CourseOffering (spec section 3).  Written from the spec's words for
comparison with `send_first_scan_notification`. -/
def total_items_in_snapshot_spec (d : ScrapeData) : Nat :=
  (match d.quizzes with
   | some q => q.quizzes_with_results.length + q.quizzes_without_results.length
   | none => 0) +
  (match d.assignments with
   | some a => a.length
   | none => 0) +
  (match d.absences with
   | some a => a.length
   | none => 0) +
  (match d.course_registration with
   | some c => c.available_courses.length
   | none => 0)

/-! ## Deadline reminders (tasks.check_for_deadline_reminders) -/

/-- The task fields the reminder loop reads (each may be absent). -/
structure ReminderTask where
  id : Option String
  course : Option String
  name : Option String
deriving DecidableEq

/-- `str(task.get('id', f"{task.get('course', 'N/A')}-{task.get('name', 'N/A')}"))`. -/
def task_identifier (t : ReminderTask) : String :=
  match t.id with
  | some i => i
  | none => t.course.getD "N/A" ++ "-" ++ t.name.getD "N/A"

/-- The `sent_reminders` table: `(user_id, task_identifier)` pairs. -/
abbrev ReminderState := List (String × String)

/-- The observable actions of one reminder check, in program order. -/
inductive ReminderAction where
  | record_written
  | reminder_sent
deriving DecidableEq

/-- One pass of the per-task body of `check_for_deadline_reminders`:
`user_id` and `task` under scrutiny, the parsed deadline (none when
`parse_deadline_date` failed), the tenant's reminder window in hours, the
current time, and whether the `sent_reminders` insert succeeds. -/
structure ReminderRun where
  user_id : String
  task : ReminderTask
  deadline : Option Int
  reminder_hours : Int
  now : Int
  insert_ok : Bool

/-- The per-task body of `check_for_deadline_reminders`: skip unparseable
deadlines and tasks outside `[deadline - hours, deadline)`; skip tasks with
an existing `sent_reminders` row; otherwise record FIRST, then send.  A
failed insert skips the send. -/
def process_task_reminder (r : ReminderRun) (st : ReminderState) :
    List ReminderAction × ReminderState :=
  match r.deadline with
  | none => ([], st)
  | some deadline =>
    if deadline - r.reminder_hours * 3600 ≤ r.now ∧ r.now < deadline then
      let tid := task_identifier r.task
      if (r.user_id, tid) ∈ st then ([], st)
      else if r.insert_ok then
        ([.record_written, .reminder_sent], (r.user_id, tid) :: st)
      else ([], st)
    else ([], st)

/-- Sequential reminder checks (e.g. the hourly sweeps), accumulating the
emitted actions. -/
def run_reminder_checks : List ReminderRun → ReminderState →
    List ReminderAction × ReminderState
  | [], st => ([], st)
  | r :: rs, st =>
    let p := process_task_reminder r st
    let q := run_reminder_checks rs p.2
    (p.1 ++ q.1, q.2)

/-- Number of reminders actually sent in an action trace. -/
def reminders_sent (acts : List ReminderAction) : Nat :=
  acts.countP (fun a => a = .reminder_sent)

/-- A run of consecutive failing jobs for one tenant: each failure is
handled by `handle_failure_step` and the per-step
`(should_suspend, suspension_alert_sent)` flags are collected in order. -/
def failure_chain (threshold : Nat) (user_id : String) :
    List (PyErrorType × String × Int) → TrackerState → DedupState →
      List (Bool × Bool) × TrackerState × DedupState
  | [], ts, dd => ([], ts, dd)
  | (et, m, t) :: rest, ts, dd =>
    let r := handle_failure_step threshold user_id et m t ts dd
    let q := failure_chain threshold user_id rest r.2.1 r.2.2
    (r.1 :: q.1, q.2)

/-! ## Supporting lemmas -/

theorem charListLe_total (a b : List Char) :
    charListLe a b = true ∨ charListLe b a = true := by
  induction a generalizing b with
  | nil => left; rfl
  | cons x xs ih =>
    cases b with
    | nil => right; rfl
    | cons y ys =>
      by_cases h1 : x.toNat < y.toNat
      · left; simp [charListLe, h1]
      · by_cases h2 : y.toNat < x.toNat
        · right; simp [charListLe, h1, h2]
        · rcases ih ys with h | h
          · left; simp [charListLe, h1, h2, h]
          · right; simp [charListLe, h1, h2, h]

theorem charListLe_trans {a b c : List Char} (hab : charListLe a b = true)
    (hbc : charListLe b c = true) : charListLe a c = true := by
  induction a generalizing b c with
  | nil => rfl
  | cons x xs ih =>
    cases b with
    | nil => simp [charListLe] at hab
    | cons y ys =>
      cases c with
      | nil => simp [charListLe] at hbc
      | cons z zs =>
        simp only [charListLe] at hab hbc ⊢
        split at hab
        · split at hbc
          · simp; omega
          · split at hbc
            · exact absurd hbc (by simp)
            · simp; omega
        · split at hab
          · exact absurd hab (by simp)
          · split at hbc
            · simp; omega
            · split at hbc
              · exact absurd hbc (by simp)
              · have hxz : ¬x.toNat < z.toNat ∧ ¬z.toNat < x.toNat := by omega
                simp only [hxz.1, if_false, hxz.2]
                exact ih hab hbc

theorem charListLt_asymm {a b : List Char} (hab : charListLt a b = true)
    (hba : charListLt b a = true) : False := by
  induction a generalizing b with
  | nil =>
    cases b with
    | nil => simp [charListLt] at hab
    | cons y ys => simp [charListLt] at hba
  | cons x xs ih =>
    cases b with
    | nil => simp [charListLt] at hab
    | cons y ys =>
      simp only [charListLt] at hab hba
      split at hab
      · rw [if_neg (by omega), if_pos (by omega)] at hba
        exact absurd hba (by simp)
      · split at hab
        · exact absurd hab (by simp)
        · rw [if_neg (by omega), if_neg (by omega)] at hba
          exact ih hab hba

theorem charListLt_of_le_of_ne {a b : List Char} (hle : charListLe a b = true)
    (hne : a ≠ b) : charListLt a b = true := by
  induction a generalizing b with
  | nil =>
    cases b with
    | nil => exact absurd rfl hne
    | cons y ys => rfl
  | cons x xs ih =>
    cases b with
    | nil => simp [charListLe] at hle
    | cons y ys =>
      simp only [charListLe] at hle
      simp only [charListLt]
      split at hle
      · simp_all
      · split at hle
        · exact absurd hle (by simp)
        · have hxy : x = y := by
            have ht : x.toNat = y.toNat := by omega
            exact Char.ext (UInt32.ext (by simpa [Char.toNat] using ht))
          subst hxy
          rw [if_neg (by omega), if_neg (by omega)]
          exact ih hle (fun h => hne (by rw [h]))

theorem PyErrorType.value_ne_success (et : PyErrorType) : et.value ≠ "success" := by
  cases et <;> decide

/-- Sanity check of the MD5 embedding against the RFC 1321 test vector for
the empty message. -/
theorem md5_rfc_vector_empty : md5Hex [] = "d41d8cd98f00b204e9800998ecf8427e" := by
  decide

/-- Sanity check of the MD5 embedding against the RFC 1321 test vector for
the message `abc`. -/
theorem md5_rfc_vector_abc :
    md5Hex (utf8Bytes "abc") = "900150983cd24fb0d6963f7d28e17f72" := by decide

theorem should_send_eq_true (w : Int) (uid nt ch : String) (t : Int) (dd : DedupState)
    (hno : ∀ r ∈ dd, r.notification_id = notification_id_of uid nt ch →
      r.sent_at < t - w * 60) :
    should_send_notification w uid nt ch t dd =
      (true, { notification_id := notification_id_of uid nt ch, sent_at := t } :: dd) := by
  simp only [should_send_notification]
  rw [if_neg]
  intro hany
  rw [List.any_eq_true] at hany
  obtain ⟨r, hr, hp⟩ := hany
  simp only [Bool.and_eq_true, decide_eq_true_eq] at hp
  exact absurd hp.2 (not_le.mpr (hno r hr hp.1))

theorem should_send_eq_false (w : Int) (uid nt ch : String) (t : Int) (dd : DedupState)
    (r : DedupRecord) (hr : r ∈ dd)
    (hid : r.notification_id = notification_id_of uid nt ch)
    (ht : t - w * 60 ≤ r.sent_at) :
    should_send_notification w uid nt ch t dd = (false, dd) := by
  simp only [should_send_notification]
  rw [if_pos]
  rw [List.any_eq_true]
  exact ⟨r, hr, by simp [hid, ht]⟩

theorem mem_should_send_snd (w : Int) (uid nt ch : String) (t : Int) (dd : DedupState)
    {r : DedupRecord} (hr : r ∈ dd) :
    r ∈ (should_send_notification w uid nt ch t dd).2 := by
  simp only [should_send_notification]
  split
  · exact hr
  · exact List.mem_cons_of_mem _ hr

theorem should_send_snd_ids (w : Int) (uid nt ch : String) (t : Int) (dd : DedupState) :
    ∀ r ∈ (should_send_notification w uid nt ch t dd).2,
      r ∈ dd ∨ r.notification_id = notification_id_of uid nt ch := by
  simp only [should_send_notification]
  split
  · exact fun r hr => .inl hr
  · intro r hr
    rcases List.mem_cons.mp hr with h1 | h1
    · right; rw [h1]
    · left; exact h1

theorem error_id_ne_suspension_id (uid a b : String) :
    notification_id_of uid "error" a ≠ notification_id_of uid "suspension" b := by
  intro h
  have h2 := congrArg String.data h
  simp only [notification_id_of, String.data_append, List.append_assoc] at h2
  have h3 := List.append_cancel_left h2
  rw [List.singleton_append, List.singleton_append] at h3
  injection h3 with _ h4
  simp at h4

theorem log_error_count (th : Nat) (et : PyErrorType) (m : String) (s : TrackerState) :
    get_consecutive_failure_count (log_error th et m s).2 =
      get_consecutive_failure_count s + 1 := by
  simp only [log_error]
  split
  · simp [get_consecutive_failure_count, suspend_auto_scraping, et.value_ne_success]
  · simp [get_consecutive_failure_count, et.value_ne_success]

theorem log_error_fst (th : Nat) (et : PyErrorType) (m : String) (s : TrackerState) :
    (log_error th et m s).1 = decide (th ≤ get_consecutive_failure_count s + 1) := by
  simp only [log_error]
  split
  · next hc => simp [hc]
  · next hc => simp [hc]

theorem log_error_creds_below (th : Nat) (et : PyErrorType) (m : String)
    (s : TrackerState) (h : get_consecutive_failure_count s + 1 < th) :
    (log_error th et m s).2.creds = s.creds := by
  simp only [log_error]
  rw [if_neg (by omega)]

theorem log_error_creds_suspend (th : Nat) (et : PyErrorType) (m : String)
    (s : TrackerState) (h : th ≤ get_consecutive_failure_count s + 1) :
    (log_error th et m s).2.creds =
      { is_automation_active := false
        scraping_suspended := true
        suspension_reason :=
          some ("Suspended after " ++ pyStrOfNat th ++ " consecutive failures") } := by
  simp only [log_error]
  rw [if_pos h]
  rfl

theorem handle_failure_step_below (th : Nat) (uid : String) (et : PyErrorType)
    (m : String) (t : Int) (ts : TrackerState) (dd : DedupState)
    (h : get_consecutive_failure_count ts + 1 < th) :
    handle_failure_step th uid et m t ts dd =
      ((false, false), (log_error th et m ts).2,
        (send_error_notification uid et (get_friendly_error_message et m) t dd).2) := by
  have hfst : (log_error th et m ts).1 = false := by
    rw [log_error_fst]
    simp
    omega
  simp only [handle_failure_step, hfst]
  rfl

theorem handle_failure_step_suspend (th : Nat) (uid : String) (et : PyErrorType)
    (m : String) (t : Int) (ts : TrackerState) (dd : DedupState)
    (h : th ≤ get_consecutive_failure_count ts + 1) :
    handle_failure_step th uid et m t ts dd =
      ((true,
         (send_suspension_notification uid t
           (send_error_notification uid et (get_friendly_error_message et m) t dd).2).1),
        (log_error th et m ts).2,
        (send_suspension_notification uid t
          (send_error_notification uid et (get_friendly_error_message et m) t dd).2).2) := by
  have hfst : (log_error th et m ts).1 = true := by
    rw [log_error_fst]
    simp [h]
  simp only [handle_failure_step, hfst]
  rfl

theorem send_error_notification_ids (uid : String) (et : PyErrorType) (f : String)
    (t : Int) (dd : DedupState)
    (hdd : ∀ r ∈ dd, ∃ ch, r.notification_id = notification_id_of uid "error" ch) :
    ∀ r ∈ (send_error_notification uid et f t dd).2,
      ∃ ch, r.notification_id = notification_id_of uid "error" ch := by
  intro r hr
  simp only [send_error_notification] at hr
  rcases should_send_snd_ids _ _ _ _ _ _ r hr with h | h
  · exact hdd r h
  · exact ⟨_, h⟩

theorem send_suspension_on_error_ids (uid : String) (t : Int) (dd : DedupState)
    (hdd : ∀ r ∈ dd, ∃ ch, r.notification_id = notification_id_of uid "error" ch) :
    send_suspension_notification uid t dd =
      (true,
        { notification_id :=
            notification_id_of uid "suspension" (generate_content_hash suspension_content)
          sent_at := t } :: dd) := by
  simp only [send_suspension_notification]
  apply should_send_eq_true
  intro r hr hid
  obtain ⟨ch, hch⟩ := hdd r hr
  cases error_id_ne_suspension_id uid ch _ (hch.symm.trans hid)

/-- C1: with the suspension threshold at 6, six consecutive non-generic
failures for a tenant trip the breaker exactly at the sixth failure:
`log_error` reports should-suspend (and the suspension alert goes out, and
automation is flipped off) at the sixth failure and not before, and a
seventh consecutive failure within the dedup window reports should-suspend
again but does not send a second suspension alert. -/
theorem circuit_breaker_threshold_scenario (uid : String)
    (et1 et2 et3 et4 et5 et6 et7 : PyErrorType)
    (m1 m2 m3 m4 m5 m6 m7 : String) (t1 t2 t3 t4 t5 t6 t7 : Int)
    (s0 : TrackerState) (h0 : get_consecutive_failure_count s0 = 0)
    (hwin : t7 - t6 ≤ 300) :
    (failure_chain 6 uid
        [(et1, m1, t1), (et2, m2, t2), (et3, m3, t3), (et4, m4, t4), (et5, m5, t5)]
        s0 []).2.1.creds = s0.creds ∧
    (failure_chain 6 uid
        [(et1, m1, t1), (et2, m2, t2), (et3, m3, t3), (et4, m4, t4), (et5, m5, t5),
         (et6, m6, t6)] s0 []).2.1.creds.is_automation_active = false ∧
    (failure_chain 6 uid
        [(et1, m1, t1), (et2, m2, t2), (et3, m3, t3), (et4, m4, t4), (et5, m5, t5),
         (et6, m6, t6)] s0 []).2.1.creds.scraping_suspended = true ∧
    (failure_chain 6 uid
        [(et1, m1, t1), (et2, m2, t2), (et3, m3, t3), (et4, m4, t4), (et5, m5, t5),
         (et6, m6, t6), (et7, m7, t7)] s0 []).1 =
      [(false, false), (false, false), (false, false), (false, false), (false, false),
       (true, true), (true, false)] := by
  have e1 := handle_failure_step_below 6 uid et1 m1 t1 s0 [] (by omega)
  set ts1 := (log_error 6 et1 m1 s0).2 with hts1
  set dd1 := (send_error_notification uid et1 (get_friendly_error_message et1 m1) t1
    ([] : DedupState)).2 with hdd1
  have c1 : get_consecutive_failure_count ts1 = 1 := by
    rw [hts1, log_error_count]; omega
  have hcreds1 : ts1.creds = s0.creds := by
    rw [hts1]; exact log_error_creds_below _ _ _ _ (by omega)
  have hP1 : ∀ r ∈ dd1, ∃ ch, r.notification_id = notification_id_of uid "error" ch := by
    rw [hdd1]
    exact send_error_notification_ids uid et1 _ t1 [] (by simp)
  have e2 := handle_failure_step_below 6 uid et2 m2 t2 ts1 dd1 (by omega)
  set ts2 := (log_error 6 et2 m2 ts1).2 with hts2
  set dd2 := (send_error_notification uid et2 (get_friendly_error_message et2 m2) t2
    dd1).2 with hdd2
  have c2 : get_consecutive_failure_count ts2 = 2 := by
    rw [hts2, log_error_count]; omega
  have hcreds2 : ts2.creds = s0.creds := by
    rw [hts2, log_error_creds_below _ _ _ _ (by omega)]; exact hcreds1
  have hP2 : ∀ r ∈ dd2, ∃ ch, r.notification_id = notification_id_of uid "error" ch := by
    rw [hdd2]
    exact send_error_notification_ids uid et2 _ t2 dd1 hP1
  have e3 := handle_failure_step_below 6 uid et3 m3 t3 ts2 dd2 (by omega)
  set ts3 := (log_error 6 et3 m3 ts2).2 with hts3
  set dd3 := (send_error_notification uid et3 (get_friendly_error_message et3 m3) t3
    dd2).2 with hdd3
  have c3 : get_consecutive_failure_count ts3 = 3 := by
    rw [hts3, log_error_count]; omega
  have hcreds3 : ts3.creds = s0.creds := by
    rw [hts3, log_error_creds_below _ _ _ _ (by omega)]; exact hcreds2
  have hP3 : ∀ r ∈ dd3, ∃ ch, r.notification_id = notification_id_of uid "error" ch := by
    rw [hdd3]
    exact send_error_notification_ids uid et3 _ t3 dd2 hP2
  have e4 := handle_failure_step_below 6 uid et4 m4 t4 ts3 dd3 (by omega)
  set ts4 := (log_error 6 et4 m4 ts3).2 with hts4
  set dd4 := (send_error_notification uid et4 (get_friendly_error_message et4 m4) t4
    dd3).2 with hdd4
  have c4 : get_consecutive_failure_count ts4 = 4 := by
    rw [hts4, log_error_count]; omega
  have hcreds4 : ts4.creds = s0.creds := by
    rw [hts4, log_error_creds_below _ _ _ _ (by omega)]; exact hcreds3
  have hP4 : ∀ r ∈ dd4, ∃ ch, r.notification_id = notification_id_of uid "error" ch := by
    rw [hdd4]
    exact send_error_notification_ids uid et4 _ t4 dd3 hP3
  have e5 := handle_failure_step_below 6 uid et5 m5 t5 ts4 dd4 (by omega)
  set ts5 := (log_error 6 et5 m5 ts4).2 with hts5
  set dd5 := (send_error_notification uid et5 (get_friendly_error_message et5 m5) t5
    dd4).2 with hdd5
  have c5 : get_consecutive_failure_count ts5 = 5 := by
    rw [hts5, log_error_count]; omega
  have hcreds5 : ts5.creds = s0.creds := by
    rw [hts5, log_error_creds_below _ _ _ _ (by omega)]; exact hcreds4
  have hP5 : ∀ r ∈ dd5, ∃ ch, r.notification_id = notification_id_of uid "error" ch := by
    rw [hdd5]
    exact send_error_notification_ids uid et5 _ t5 dd4 hP4
  set dd6e := (send_error_notification uid et6 (get_friendly_error_message et6 m6) t6
    dd5).2 with hdd6e
  have hP6 : ∀ r ∈ dd6e, ∃ ch, r.notification_id = notification_id_of uid "error" ch := by
    rw [hdd6e]
    exact send_error_notification_ids uid et6 _ t6 dd5 hP5
  have hsusp6 := send_suspension_on_error_ids uid t6 dd6e hP6
  set rec6 : DedupRecord :=
    { notification_id :=
        notification_id_of uid "suspension" (generate_content_hash suspension_content)
      sent_at := t6 } with hrec6
  have e6 : handle_failure_step 6 uid et6 m6 t6 ts5 dd5 =
      ((true, true), (log_error 6 et6 m6 ts5).2, rec6 :: dd6e) := by
    rw [handle_failure_step_suspend 6 uid et6 m6 t6 ts5 dd5 (by omega), hsusp6]
  set ts6 := (log_error 6 et6 m6 ts5).2 with hts6
  have c6 : get_consecutive_failure_count ts6 = 6 := by
    rw [hts6, log_error_count]; omega
  have hcreds6 : ts6.creds =
      { is_automation_active := false
        scraping_suspended := true
        suspension_reason :=
          some ("Suspended after " ++ pyStrOfNat 6 ++ " consecutive failures") } := by
    rw [hts6]; exact log_error_creds_suspend _ _ _ _ (by omega)
  set dd7e := (send_error_notification uid et7 (get_friendly_error_message et7 m7) t7
    (rec6 :: dd6e)).2 with hdd7e
  have hmem7 : rec6 ∈ dd7e := by
    rw [hdd7e]
    simp only [send_error_notification]
    exact mem_should_send_snd _ _ _ _ _ _ (List.mem_cons_self _ _)
  have hsusp7 : send_suspension_notification uid t7 dd7e = (false, dd7e) := by
    simp only [send_suspension_notification]
    exact should_send_eq_false 5 uid "suspension" _ t7 dd7e rec6 hmem7 (by rw [hrec6])
      (by rw [hrec6]; show t7 - 5 * 60 ≤ t6; omega)
  have e7 : handle_failure_step 6 uid et7 m7 t7 ts6 (rec6 :: dd6e) =
      ((true, false), (log_error 6 et7 m7 ts6).2, dd7e) := by
    rw [handle_failure_step_suspend 6 uid et7 m7 t7 ts6 (rec6 :: dd6e) (by omega), hsusp7]
  refine ⟨?_, ?_, ?_, ?_⟩
  · simp only [failure_chain, e1, e2, e3, e4, e5]
    exact hcreds5
  · simp only [failure_chain, e1, e2, e3, e4, e5, e6]
    rw [hcreds6]
  · simp only [failure_chain, e1, e2, e3, e4, e5, e6]
    rw [hcreds6]
  · simp only [failure_chain, e1, e2, e3, e4, e5, e6, e7]

/-- Witness for C1: a concrete seven-failure run for tenant `u` starting
from a fresh tracker state, with the seventh failure 100 seconds after the
sixth. -/
theorem circuit_breaker_threshold_scenario_witness :
    get_consecutive_failure_count
      { events := []
        creds := { is_automation_active := true, scraping_suspended := false,
                   suspension_reason := none } } = 0 ∧
    (1100 : Int) - 1000 ≤ 300 ∧
    ((failure_chain 6 "u"
        [(.network_timeout, "m", 0), (.network_timeout, "m", 0), (.network_timeout, "m", 0),
         (.network_timeout, "m", 0), (.network_timeout, "m", 0)]
        { events := []
          creds := { is_automation_active := true, scraping_suspended := false,
                     suspension_reason := none } } []).2.1.creds =
      ({ is_automation_active := true, scraping_suspended := false,
         suspension_reason := none } : UserCredentials) ∧
     (failure_chain 6 "u"
        [(.network_timeout, "m", 0), (.network_timeout, "m", 0), (.network_timeout, "m", 0),
         (.network_timeout, "m", 0), (.network_timeout, "m", 0), (.network_timeout, "m", 1000)]
        { events := []
          creds := { is_automation_active := true, scraping_suspended := false,
                     suspension_reason := none } } []).2.1.creds.is_automation_active = false ∧
     (failure_chain 6 "u"
        [(.network_timeout, "m", 0), (.network_timeout, "m", 0), (.network_timeout, "m", 0),
         (.network_timeout, "m", 0), (.network_timeout, "m", 0), (.network_timeout, "m", 1000)]
        { events := []
          creds := { is_automation_active := true, scraping_suspended := false,
                     suspension_reason := none } } []).2.1.creds.scraping_suspended = true ∧
     (failure_chain 6 "u"
        [(.network_timeout, "m", 0), (.network_timeout, "m", 0), (.network_timeout, "m", 0),
         (.network_timeout, "m", 0), (.network_timeout, "m", 0), (.network_timeout, "m", 1000),
         (.network_timeout, "m", 1100)]
        { events := []
          creds := { is_automation_active := true, scraping_suspended := false,
                     suspension_reason := none } } []).1 =
      [(false, false), (false, false), (false, false), (false, false), (false, false),
       (true, true), (true, false)]) :=
  ⟨by decide, by decide,
    circuit_breaker_threshold_scenario "u"
      .network_timeout .network_timeout .network_timeout .network_timeout
      .network_timeout .network_timeout .network_timeout
      "m" "m" "m" "m" "m" "m" "m" 0 0 0 0 0 1000 1100
      { events := []
        creds := { is_automation_active := true, scraping_suspended := false,
                   suspension_reason := none } }
      (by decide) (by decide)⟩

/-- C2: immediately after `log_success` the consecutive-failure count read
back for the tenant is 0, regardless of the prior state: the persisted head
event is a zero-count success event and the count reader returns 0 when the
most recent event is a success. -/
theorem failure_count_zero_after_success (s : TrackerState) :
    get_consecutive_failure_count (log_success s) = 0 ∧
    (log_success s).events.head? =
      some { error_type := "success"
             error_message := "Scraping completed successfully"
             consecutive_failure_count := 0
             should_suspend_scraping := false } := by
  simp only [log_success, enable_auto_scraping]
  split <;> simp [get_consecutive_failure_count]

/-- C5: for a fixed tenant, notification type and content hash, a permitted
send at `t1` immediately writes its own dedup record; an identical call at
`t2` within the trailing five-minute window of that record is blocked and
leaves the store unchanged; an identical call at `t3` after the window has
elapsed is permitted again. -/
theorem dedup_window_scenario (uid ntype chash : String) (t1 t2 t3 : Int)
    (st0 : DedupState)
    (h0 : ∀ r ∈ st0, r.notification_id = notification_id_of uid ntype chash →
      r.sent_at < t1 - 300)
    (h12 : t1 ≤ t2) (h2 : t2 - t1 ≤ 300) (h3 : 300 < t3 - t1) :
    (should_send_notification 5 uid ntype chash t1 st0).1 = true ∧
    (should_send_notification 5 uid ntype chash t1 st0).2 =
      { notification_id := notification_id_of uid ntype chash, sent_at := t1 } :: st0 ∧
    should_send_notification 5 uid ntype chash t2
        ({ notification_id := notification_id_of uid ntype chash, sent_at := t1 } :: st0) =
      (false,
        { notification_id := notification_id_of uid ntype chash, sent_at := t1 } :: st0) ∧
    (should_send_notification 5 uid ntype chash t3
        ({ notification_id := notification_id_of uid ntype chash,
           sent_at := t1 } :: st0)).1 = true := by
  have e1 := should_send_eq_true 5 uid ntype chash t1 st0 (fun r hr hid => by
    have := h0 r hr hid; omega)
  have e3 := should_send_eq_true 5 uid ntype chash t3
      ({ notification_id := notification_id_of uid ntype chash, sent_at := t1 } :: st0)
      (fun r hr hid => by
        rcases List.mem_cons.mp hr with h | h
        · subst h; show t1 < t3 - 5 * 60; omega
        · have := h0 r h hid; omega)
  refine ⟨by rw [e1], by rw [e1], ?_, by rw [e3]⟩
  exact should_send_eq_false 5 uid ntype chash t2 _
    { notification_id := notification_id_of uid ntype chash, sent_at := t1 }
    (List.mem_cons_self _ _) rfl (by show t2 - 5 * 60 ≤ t1; omega)

/-- Witness for C5: tenant `u`, type `error`, hash `h`, first send at 1200,
a blocked duplicate at 1300, and a permitted send at 1600. -/
theorem dedup_window_scenario_witness :
    ((1200 : Int) ≤ 1300) ∧ ((1300 : Int) - 1200 ≤ 300) ∧ ((300 : Int) < 1600 - 1200) ∧
    ((should_send_notification 5 "u" "error" "h" 1200 []).1 = true ∧
     (should_send_notification 5 "u" "error" "h" 1200 []).2 =
       { notification_id := notification_id_of "u" "error" "h", sent_at := 1200 } :: [] ∧
     should_send_notification 5 "u" "error" "h" 1300
         ({ notification_id := notification_id_of "u" "error" "h", sent_at := 1200 } :: []) =
       (false,
         { notification_id := notification_id_of "u" "error" "h", sent_at := 1200 } :: []) ∧
     (should_send_notification 5 "u" "error" "h" 1600
         ({ notification_id := notification_id_of "u" "error" "h",
            sent_at := 1200 } :: [])).1 = true) :=
  ⟨by decide, by decide, by decide,
    dedup_window_scenario "u" "error" "h" 1200 1300 1600 [] (by simp)
      (by decide) (by decide) (by decide)⟩

theorem new_items_by_self {α : Type} (key : α → String) (l : List α) :
    new_items_by key l l = [] := by
  unfold new_items_by
  rw [List.filter_eq_nil_iff]
  intro a ha
  have hm : key a ∈ l.map key := List.mem_map_of_mem key ha
  simp [List.elem_eq_true_of_mem hm, List.contains]
  exact ⟨a, ha, rfl⟩

/-- C3: diffing a snapshot against itself yields no new items in any
category — no new quizzes with or without results, assignments or
absences — the returned count is 0 and the new-items notification path is
not invoked. -/
theorem diff_self_is_empty (S : ScrapeData) :
    compare_and_notify S S =
      { quizzes_with_results := []
        quizzes_without_results := []
        assignments := []
        absences := []
        new_items_count := 0
        notified := false } := by
  obtain ⟨q, a, ab, c⟩ := S
  cases q <;> cases a <;> cases ab <;>
    simp [compare_and_notify, new_items_by_self]

/-- C10: a category is compared only when its top-level key is present in
both the previous and the new snapshot: when either side lacks the key, no
item of that category is reported as new. -/
theorem missing_category_key_skips_comparison (old_data new_data : ScrapeData) :
    ((old_data.quizzes = none ∨ new_data.quizzes = none) →
      (compare_and_notify old_data new_data).quizzes_with_results = [] ∧
      (compare_and_notify old_data new_data).quizzes_without_results = []) ∧
    ((old_data.assignments = none ∨ new_data.assignments = none) →
      (compare_and_notify old_data new_data).assignments = []) ∧
    ((old_data.absences = none ∨ new_data.absences = none) →
      (compare_and_notify old_data new_data).absences = []) := by
  obtain ⟨oq, oa, ob, oc⟩ := old_data
  obtain ⟨nq, na, nb, nc⟩ := new_data
  refine ⟨fun h => ?_, fun h => ?_, fun h => ?_⟩
  · cases oq <;> cases nq <;> simp_all [compare_and_notify]
  · cases oa <;> cases na <;> simp_all [compare_and_notify]
  · cases ob <;> cases nb <;> simp_all [compare_and_notify]

/-- Witness for C10: a previous snapshot without an `assignments` key and a
new snapshot holding one assignment: the assignment is not reported new. -/
theorem missing_category_key_skips_comparison_witness :
    (({ quizzes := none, assignments := none, absences := none,
        course_registration := none } : ScrapeData).assignments = none ∨
      ({ quizzes := none, assignments := some [{ course := "CS101", name := "HW1" }],
         absences := none, course_registration := none } : ScrapeData).assignments =
        none) ∧
    (compare_and_notify
        { quizzes := none, assignments := none, absences := none,
          course_registration := none }
        { quizzes := none, assignments := some [{ course := "CS101", name := "HW1" }],
          absences := none, course_registration := none }).assignments = [] :=
  ⟨Or.inl rfl,
    (missing_category_key_skips_comparison
      { quizzes := none, assignments := none, absences := none,
        course_registration := none }
      { quizzes := none, assignments := some [{ course := "CS101", name := "HW1" }],
        absences := none, course_registration := none }).2.1 (Or.inl rfl)⟩

/-- Counterexample to C4 as stated: a first scan whose snapshot holds
exactly one item, an available course offering.  The run is routed to the
first-run path, but the returned new-item count is 0 while the snapshot
carries 1 item: the count formula of `send_first_scan_notification` omits
the course-offering collection. -/
theorem first_scan_count_counterexample :
    (notify_after_scan none
        { quizzes := none, assignments := none, absences := none,
          course_registration := some { available_courses := ["Calculus"] } }).2 =
      NotifyPath.first_run ∧
    (notify_after_scan none
        { quizzes := none, assignments := none, absences := none,
          course_registration := some { available_courses := ["Calculus"] } }).1 = 0 ∧
    total_items_in_snapshot_spec
        { quizzes := none, assignments := none, absences := none,
          course_registration := some { available_courses := ["Calculus"] } } = 1 := by
  decide

/-- C4 (amended): when no previous successful snapshot exists, the run is
routed to the first-run summary path (`send_first_scan_notification`), not
the standard diff-and-notify path, and the returned count equals the number
of quiz, assignment and absence items in the snapshot — the snapshot total
minus its available course offerings, which the count omits. -/
theorem first_scan_routing (d : ScrapeData) :
    (notify_after_scan none d).2 = NotifyPath.first_run ∧
    (notify_after_scan none d).1 +
        (match d.course_registration with
         | some c => c.available_courses.length
         | none => 0) =
      total_items_in_snapshot_spec d := by
  obtain ⟨q, a, ab, c⟩ := d
  exact ⟨rfl, rfl⟩

theorem stringDataInj {s t : String} (h : s.data = t.data) : s = t := by
  cases s
  cases t
  exact congrArg String.mk h

theorem sortedItems_eq_of_perm_nodup {l1 l2 : List (String × PyVal)}
    (hp : l1.Perm l2) (hnd : (l1.map Prod.fst).Nodup) :
    sortedItems l1 = sortedItems l2 := by
  letI : IsTotal (String × PyVal) itemKeyLe :=
    ⟨fun a b => charListLe_total a.1.data b.1.data⟩
  letI : IsTrans (String × PyVal) itemKeyLe := ⟨fun _ _ _ => charListLe_trans⟩
  letI : IsAntisymm (String × PyVal)
      (fun a b => charListLt a.1.data b.1.data = true) :=
    ⟨fun _ _ h1 h2 => (charListLt_asymm h1 h2).elim⟩
  have hperm : (sortedItems l1).Perm (sortedItems l2) :=
    (List.perm_insertionSort itemKeyLe l1).trans
      (hp.trans (List.perm_insertionSort itemKeyLe l2).symm)
  have hn1 : ((sortedItems l1).map Prod.fst).Nodup :=
    (((List.perm_insertionSort itemKeyLe l1).map Prod.fst).nodup_iff).mpr hnd
  have hn2 : ((sortedItems l2).map Prod.fst).Nodup :=
    (((List.perm_insertionSort itemKeyLe l2).map Prod.fst).nodup_iff).mpr
      ((hp.map Prod.fst).nodup_iff.mp hnd)
  have strict : ∀ (l : List (String × PyVal)), List.Sorted itemKeyLe l →
      ((l.map Prod.fst).Nodup) →
      List.Pairwise (fun a b : String × PyVal => charListLt a.1.data b.1.data = true) l := by
    intro l hs hn
    have hne : l.Pairwise (fun a b : String × PyVal => a.1 ≠ b.1) :=
      List.pairwise_map.mp hn
    exact (hs.and hne).imp (fun hab =>
      charListLt_of_le_of_ne hab.1 (fun hd => hab.2 (stringDataInj hd)))
  exact List.eq_of_perm_of_sorted hperm
    (strict _ (List.sorted_insertionSort itemKeyLe l1) hn1)
    (strict _ (List.sorted_insertionSort itemKeyLe l2) hn2)

/-- C9 (amended): the dedup content hash is invariant under permutations of
the top-level key insertion order of the content dict (whose keys are
pairwise distinct, as in any Python dict); the nested-structure half of the
claim is refuted by the counterexample. -/
theorem content_hash_top_level_order_invariant (l1 l2 : List (String × PyVal))
    (hp : l1.Perm l2) (hnd : (l1.map Prod.fst).Nodup) :
    generate_content_hash (.dict l1) = generate_content_hash (.dict l2) := by
  simp only [generate_content_hash]
  rw [sortedItems_eq_of_perm_nodup hp hnd]

/-- Witness for C9 (amended): the two-key content seen in both insertion
orders hashes identically. -/
theorem content_hash_top_level_order_invariant_witness :
    ([("a", PyVal.int 1), ("b", PyVal.int 2)] : List (String × PyVal)).Perm
        [("b", PyVal.int 2), ("a", PyVal.int 1)] ∧
    (([("a", PyVal.int 1), ("b", PyVal.int 2)] : List (String × PyVal)).map
        Prod.fst).Nodup ∧
    generate_content_hash (.dict [("a", PyVal.int 1), ("b", PyVal.int 2)]) =
      generate_content_hash (.dict [("b", PyVal.int 2), ("a", PyVal.int 1)]) :=
  ⟨List.Perm.swap _ _ _, by decide,
    content_hash_top_level_order_invariant _ _ (List.Perm.swap _ _ _) (by decide)⟩

/-- Counterexample to C9 as stated: the same content with a nested dict in
two insertion orders (the inner list reversed) hashes differently, because
`generate_content_hash` sorts only the top-level items while `str` renders
nested dicts in insertion order. -/
theorem content_hash_nested_order_counterexample :
    ([("y", PyVal.int 2), ("x", PyVal.int 1)] : List (String × PyVal)) =
      ([("x", PyVal.int 1), ("y", PyVal.int 2)] : List (String × PyVal)).reverse ∧
    generate_content_hash
        (.dict [("a", .dict [("x", .int 1), ("y", .int 2)])]) ≠
      generate_content_hash
        (.dict [("a", .dict [("y", .int 2), ("x", .int 1)])]) := by
  refine ⟨rfl, ?_⟩
  decide

theorem log_error_events_length (th : Nat) (et : PyErrorType) (m : String)
    (s : TrackerState) :
    (log_error th et m s).2.events.length = s.events.length + 1 := by
  simp only [log_error]
  split
  · simp [suspend_auto_scraping]
  · simp

theorem handle_failure_step_ts (th : Nat) (uid : String) (et : PyErrorType)
    (m : String) (t : Int) (ts : TrackerState) (dd : DedupState) :
    (handle_failure_step th uid et m t ts dd).2.1 = (log_error th et m ts).2 := by
  simp only [handle_failure_step]
  split <;> rfl

/-- Counterexample to C7 as stated: a login failure whose message is
shorter than the low-information threshold (`"short"`, 5 characters, vague
per the guard) still logs a failure event: the inner handler of
`_login_with_tracking` runs `log_error` before re-raising, and only the
top-level handler consults the vague-message guard.  The count read back
afterwards is 1, not 0. -/
theorem vague_failure_counted_counterexample :
    is_vague_error "short" = true ∧
    (run_scrape_with_error_tracking 10 "u" (.loginFails "short" "") 0
        { events := []
          creds := { is_automation_active := true, scraping_suspended := false,
                     suspension_reason := none } } []).1.error_tracking_skipped = true ∧
    get_consecutive_failure_count
        (run_scrape_with_error_tracking 10 "u" (.loginFails "short" "") 0
          { events := []
            creds := { is_automation_active := true, scraping_suspended := false,
                       suspension_reason := none } } []).2.1 = 1 := by
  refine ⟨by decide, by decide, by decide⟩

/-- C7 (amended): the generic/short-message exclusion acts only in the
top-level handler of `run_scrape_with_error_tracking`: when login fails
with a vague message the outer handler skips its own tracking (the result
is flagged `error_tracking_skipped`), but the inner login handler has
already logged exactly one failure event, so the consecutive-failure count
still rises by one and such failures do contribute toward suspension. -/
theorem vague_login_failure_still_logged (th : Nat) (uid msg page : String) (t : Int)
    (ts : TrackerState) (dd : DedupState)
    (hvague : is_vague_error msg = true)
    (hns : ts.creds.scraping_suspended = false) :
    (run_scrape_with_error_tracking th uid (.loginFails msg page) t ts dd).1 =
      { status := "failed", error_tracking_skipped := true } ∧
    get_consecutive_failure_count
        (run_scrape_with_error_tracking th uid (.loginFails msg page) t ts dd).2.1 =
      get_consecutive_failure_count ts + 1 ∧
    (run_scrape_with_error_tracking th uid
        (.loginFails msg page) t ts dd).2.1.events.length = ts.events.length + 1 := by
  have hred : run_scrape_with_error_tracking th uid (.loginFails msg page) t ts dd =
      ({ status := "failed", error_tracking_skipped := true },
        (handle_failure_step th uid (detect_error_type msg page) msg t ts dd).2) := by
    simp [run_scrape_with_error_tracking, hns, hvague]
  rw [hred]
  refine ⟨rfl, ?_, ?_⟩
  · show get_consecutive_failure_count
        (handle_failure_step th uid (detect_error_type msg page) msg t ts dd).2.1 =
      get_consecutive_failure_count ts + 1
    rw [handle_failure_step_ts, log_error_count]
  · show (handle_failure_step th uid
        (detect_error_type msg page) msg t ts dd).2.1.events.length =
      ts.events.length + 1
    rw [handle_failure_step_ts, log_error_events_length]

/-- Witness for C7 (amended): the vague message `short` on a fresh,
unsuspended tracker state. -/
theorem vague_login_failure_still_logged_witness :
    is_vague_error "short" = true ∧
    ({ events := []
       creds := { is_automation_active := true, scraping_suspended := false,
                  suspension_reason := none } } : TrackerState).creds.scraping_suspended =
      false ∧
    ((run_scrape_with_error_tracking 10 "u" (.loginFails "short" "") 0
        { events := []
          creds := { is_automation_active := true, scraping_suspended := false,
                     suspension_reason := none } } []).1 =
      { status := "failed", error_tracking_skipped := true } ∧
     get_consecutive_failure_count
        (run_scrape_with_error_tracking 10 "u" (.loginFails "short" "") 0
          { events := []
            creds := { is_automation_active := true, scraping_suspended := false,
                       suspension_reason := none } } []).2.1 =
      get_consecutive_failure_count
        { events := []
          creds := { is_automation_active := true, scraping_suspended := false,
                     suspension_reason := none } } + 1 ∧
     (run_scrape_with_error_tracking 10 "u" (.loginFails "short" "") 0
        { events := []
          creds := { is_automation_active := true, scraping_suspended := false,
                     suspension_reason := none } } []).2.1.events.length =
      ({ events := []
         creds := { is_automation_active := true, scraping_suspended := false,
                    suspension_reason := none } } : TrackerState).events.length + 1) :=
  ⟨by decide, rfl,
    vague_login_failure_still_logged 10 "u" "short" "" 0
      { events := []
        creds := { is_automation_active := true, scraping_suspended := false,
                   suspension_reason := none } } [] (by decide) rfl⟩

/-- C8: when FreeCaptchaBypass has no usable key, `solve_captcha` skips
provider A entirely — FCB is never attempted and none of its time budget is
spent — and goes to NopeCHA immediately; when the NopeCHA key is also
missing it raises the no-keys error without attempting either provider. -/
theorem captcha_fallback_skips_absent_provider (fcb nope : Option String)
    (fcb_run nope_run : ProviderOutcome)
    (hA : validate_fcb_key fcb = false) :
    ("fcb" ∉ (solve_captcha fcb nope fcb_run nope_run).2.1) ∧
    (nopecha_key_missing nope = false →
      (solve_captcha fcb nope fcb_run nope_run).2.1 = ["nopecha"] ∧
      (solve_captcha fcb nope fcb_run nope_run).2.2 = nope_run.elapsed) ∧
    (nopecha_key_missing nope = true →
      solve_captcha fcb nope fcb_run nope_run =
        (.error "Both CAPTCHA services are unavailable - no valid API keys provided.",
          [], 0)) := by
  refine ⟨?_, fun hB => ?_, fun hB => ?_⟩
  · cases hB : nopecha_key_missing nope <;> cases nope_run <;>
      simp [solve_captcha, hA, hB]
  · cases nope_run <;> simp [solve_captcha, hA, hB, ProviderOutcome.elapsed]
  · simp [solve_captcha, hA, hB]

/-- Witness for C8: no FCB key, a valid NopeCHA key, a would-fail FCB run
that is never consulted, and a NopeCHA solve taking 7 seconds. -/
theorem captcha_fallback_skips_absent_provider_witness :
    validate_fcb_key none = false ∧
    (("fcb" ∉ (solve_captcha none (some "k") (.fails "x" 45)
        (.solved "abc" 7)).2.1) ∧
     (nopecha_key_missing (some "k") = false →
       (solve_captcha none (some "k") (.fails "x" 45) (.solved "abc" 7)).2.1 =
         ["nopecha"] ∧
       (solve_captcha none (some "k") (.fails "x" 45) (.solved "abc" 7)).2.2 =
         ProviderOutcome.elapsed (.solved "abc" 7)) ∧
     (nopecha_key_missing (some "k") = true →
       solve_captcha none (some "k") (.fails "x" 45) (.solved "abc" 7) =
         (.error "Both CAPTCHA services are unavailable - no valid API keys provided.",
           [], 0))) :=
  ⟨rfl,
    captcha_fallback_skips_absent_provider none (some "k") (.fails "x" 45)
      (.solved "abc" 7) rfl⟩

theorem process_task_reminder_cases (r : ReminderRun) (st : ReminderState) :
    process_task_reminder r st = ([], st) ∨
    ((r.user_id, task_identifier r.task) ∉ st ∧
      process_task_reminder r st =
        ([.record_written, .reminder_sent],
          (r.user_id, task_identifier r.task) :: st)) := by
  simp only [process_task_reminder]
  split
  · exact Or.inl rfl
  · split
    · split
      · exact Or.inl rfl
      · next hnm =>
        split
        · exact Or.inr ⟨hnm, rfl⟩
        · exact Or.inl rfl
    · exact Or.inl rfl

theorem process_task_reminder_mem (r : ReminderRun) (st : ReminderState)
    (h : (r.user_id, task_identifier r.task) ∈ st) :
    process_task_reminder r st = ([], st) := by
  rcases process_task_reminder_cases r st with hc | ⟨hnm, _⟩
  · exact hc
  · exact absurd h hnm

theorem run_reminder_checks_no_send_of_mem (u tid : String)
    (runs : List ReminderRun) :
    ∀ st : ReminderState,
      (∀ r ∈ runs, r.user_id = u ∧ task_identifier r.task = tid) →
      (u, tid) ∈ st →
      run_reminder_checks runs st = ([], st) := by
  induction runs with
  | nil => intro st _ _; rfl
  | cons r rs ih =>
    intro st hall hmem
    have hr := hall r (List.mem_cons_self _ _)
    have hstep : process_task_reminder r st = ([], st) :=
      process_task_reminder_mem r st (by rw [hr.1, hr.2]; exact hmem)
    have hrest := ih st (fun x hx => hall x (List.mem_cons_of_mem _ hx)) hmem
    simp only [run_reminder_checks, hstep]
    simp [hrest]

theorem run_reminder_checks_sends_le_one (u tid : String)
    (runs : List ReminderRun) :
    ∀ st : ReminderState,
      (∀ r ∈ runs, r.user_id = u ∧ task_identifier r.task = tid) →
      reminders_sent (run_reminder_checks runs st).1 ≤ 1 := by
  induction runs with
  | nil => intro st _; simp [run_reminder_checks, reminders_sent]
  | cons r rs ih =>
    intro st hall
    rcases process_task_reminder_cases r st with hc | ⟨hnm, hc⟩
    · simp only [run_reminder_checks, hc]
      simpa [reminders_sent] using
        ih st (fun x hx => hall x (List.mem_cons_of_mem _ hx))
    · have hr := hall r (List.mem_cons_self _ _)
      have hmem : (u, tid) ∈ (r.user_id, task_identifier r.task) :: st := by
        rw [hr.1, hr.2]
        exact List.mem_cons_self _ _
      have hz := run_reminder_checks_no_send_of_mem u tid rs _
        (fun x hx => hall x (List.mem_cons_of_mem _ hx)) hmem
      simp only [run_reminder_checks, hc, hz]
      simp [reminders_sent]

/-- C6: at most one deadline reminder per task, ever.  Once a reminder
record exists for a `(tenant, task identifier)` pair, no later sequence of
reminder checks for that task sends another reminder, even while the task
stays inside its window; across any sequence of checks at most one reminder
goes out; and whenever a step does send, the record write precedes the send
and the record is present in the resulting state. -/
theorem deadline_reminder_at_most_once (u tid : String) (runs : List ReminderRun)
    (hall : ∀ r ∈ runs, r.user_id = u ∧ task_identifier r.task = tid)
    (st : ReminderState) :
    ((u, tid) ∈ st → reminders_sent (run_reminder_checks runs st).1 = 0) ∧
    reminders_sent (run_reminder_checks runs st).1 ≤ 1 ∧
    (∀ r' : ReminderRun, ∀ st' : ReminderState,
      (process_task_reminder r' st').1 = [] ∨
      ((process_task_reminder r' st').1 = [.record_written, .reminder_sent] ∧
        (r'.user_id, task_identifier r'.task) ∈ (process_task_reminder r' st').2)) := by
  refine ⟨fun hmem => ?_, run_reminder_checks_sends_le_one u tid runs st hall, ?_⟩
  · rw [run_reminder_checks_no_send_of_mem u tid runs st hall hmem]
    rfl
  · intro r' st'
    rcases process_task_reminder_cases r' st' with h | ⟨_, h⟩
    · exact Or.inl (by rw [h])
    · refine Or.inr ⟨by rw [h], ?_⟩
      rw [h]
      exact List.mem_cons_self _ _

/-- Witness for C6: one check for task `CS101-HW1` of tenant `u`, inside
its 24-hour window, against a store that already holds the reminder record. -/
theorem deadline_reminder_at_most_once_witness :
    (∀ r ∈ [({ user_id := "u"
               task := { id := none, course := some "CS101", name := some "HW1" }
               deadline := some 10000
               reminder_hours := 24
               now := 9000
               insert_ok := true } : ReminderRun)],
      r.user_id = "u" ∧ task_identifier r.task = "CS101-HW1") ∧
    ((("u", "CS101-HW1") ∈ ([("u", "CS101-HW1")] : ReminderState) →
      reminders_sent
        (run_reminder_checks
          [{ user_id := "u"
             task := { id := none, course := some "CS101", name := some "HW1" }
             deadline := some 10000
             reminder_hours := 24
             now := 9000
             insert_ok := true }] [("u", "CS101-HW1")]).1 = 0) ∧
     reminders_sent
        (run_reminder_checks
          [{ user_id := "u"
             task := { id := none, course := some "CS101", name := some "HW1" }
             deadline := some 10000
             reminder_hours := 24
             now := 9000
             insert_ok := true }] [("u", "CS101-HW1")]).1 ≤ 1 ∧
     (∀ r' : ReminderRun, ∀ st' : ReminderState,
       (process_task_reminder r' st').1 = [] ∨
       ((process_task_reminder r' st').1 = [.record_written, .reminder_sent] ∧
         (r'.user_id, task_identifier r'.task) ∈ (process_task_reminder r' st').2))) :=
  ⟨by decide,
    deadline_reminder_at_most_once "u" "CS101-HW1"
      [{ user_id := "u"
         task := { id := none, course := some "CS101", name := some "HW1" }
         deadline := some 10000
         reminder_hours := 24
         now := 9000
         insert_ok := true }] (by decide) [("u", "CS101-HW1")]⟩
